import Mathlib

/-!
Verification of the flux-provider-pushover webhook bridge.

This file shallowly embeds the Go sources of the repository:
  * internal/types (types.go): the data model and constants;
  * internal/handlers/message.go: the alert-to-message transformer;
  * internal/config (config.go): the environment loader and validation;
  * internal/pushover (client.go): the upstream notification client;
  * internal/handlers/handlers.go: the webhook HTTP handler.

Go strings are modeled as Lean `String`; request bodies (byte slices) are
modeled as `List Char` (bytes as characters, adequate for the ASCII payloads
considered here). Go `nil` pointers are modeled with `Option`. Go
`error` results are modeled with `Option String` (the error message) or
`Except String`.
-/

set_option autoImplicit false

namespace FluxPushover

/-! ## Data model (internal/types/types.go) -/

/-- Struct `FluxAlert.InvolvedObject` from types.go. The Go field `Namespace` is
named `nspace` here because `namespace` is a Lean keyword. -/
structure InvolvedObject where
  kind : String
  nspace : String
  name : String
  uid : String
  apiVersion : String
  resourceVersion : String
  deriving DecidableEq, Repr

/-- Struct `FluxAlert.Metadata` from types.go. -/
structure AlertMetadata where
  commitStatus : String
  revision : String
  summary : String
  deriving DecidableEq, Repr

/-- Struct `FluxAlert` from types.go (field order as in the Go struct). -/
structure FluxAlert where
  involvedObject : InvolvedObject
  severity : String
  timestamp : String
  message : String
  reason : String
  metadata : AlertMetadata
  reportingController : String
  reportingInstance : String
  deriving DecidableEq, Repr

/-- Struct `PushoverMessage` from types.go. -/
structure PushoverMessage where
  token : String
  user : String
  title : String
  message : String
  deriving DecidableEq, Repr

/-- The zero value of `FluxAlert` (Go: `var alert types.FluxAlert`). -/
def emptyAlert : FluxAlert :=
  { involvedObject := { kind := "", nspace := "", name := "", uid := "",
                        apiVersion := "", resourceVersion := "" }
    severity := "", timestamp := "", message := "", reason := ""
    metadata := { commitStatus := "", revision := "", summary := "" }
    reportingController := "", reportingInstance := "" }

/-! Constants from types.go. -/

def defaultSeverity : String := "INFO"
def defaultValue : String := "Unknown"
def noMessage : String := "No Message"
def appTitle : String := "FluxCD"
def contentTypeJSON : String := "application/json"
def contentTypeForm : String := "application/x-www-form-urlencoded"
/-- Constant `MaxBodySize = 1 << 20` (1 MiB). -/
def maxBodySize : Nat := 2 ^ 20
def responseOK : String := "\x7b\"status\": \"ok\"\x7d"
def responseUnauthorized : String := "\x7b\"error\": \"Unauthorized\"\x7d"
def responseInvalidJSON : String := "\x7b\"error\": \"Invalid JSON\"\x7d"
def responseMethodNotAllowed : String := "\x7b\"error\": \"Method not allowed\"\x7d"

/-! ## Alert-to-message transformer (internal/handlers/message.go) -/

/-- Function `strings.ToUpper`, modeled character-wise (exact on the ASCII strings
that occur in this development). -/
def goToUpper (s : String) : String := String.mk (s.data.map Char.toUpper)

/-- Function `strings.ToLower`, modeled character-wise (exact on the ASCII strings
that occur in this development). -/
def goToLower (s : String) : String := String.mk (s.data.map Char.toLower)

/-- Function `defaultIfEmpty` from message.go. -/
def defaultIfEmpty (value defaultV : String) : String :=
  if value = "" then defaultV else value

/-- Function `normalizeString` from message.go. -/
def normalizeString (value defaultV : String) (transform : String → String) : String :=
  if value = "" then transform defaultV else transform value

/-- Function `BuildPushoverMessage` from message.go. The Go `fmt.Sprintf` format
string `"%s [%s]\n%s\n\nController: %s\nObject: %s/%s\nRevision: %s\n"`
is rendered as the corresponding concatenation. -/
def buildPushoverMessage (alert : FluxAlert) : String :=
  let severity := normalizeString alert.severity defaultSeverity goToUpper
  let reason := defaultIfEmpty alert.reason defaultValue
  let controller := defaultIfEmpty alert.reportingController defaultValue
  let revision := defaultIfEmpty alert.metadata.revision defaultValue
  let kind := normalizeString alert.involvedObject.kind defaultValue goToLower
  let objectName := defaultIfEmpty alert.involvedObject.name defaultValue
  let message := defaultIfEmpty alert.message noMessage
  reason ++ " [" ++ severity ++ "]\n" ++ message ++ "\n\nController: " ++ controller ++
    "\nObject: " ++ kind ++ "/" ++ objectName ++ "\nRevision: " ++ revision ++ "\n"

/-- Function `ValidateAlert` from message.go: the argument is a pointer, `none`
models a `nil` pointer; the result is the error message, if any. -/
def validateAlert : Option FluxAlert → Option String
  | none => some "alert is nil"
  | some _ => none

/-! ## Configuration (internal/config/config.go) -/

/-- Struct `Config` from config.go. -/
structure Config where
  pushoverUserKey : String
  pushoverAPIToken : String
  bearerToken : String
  port : String
  pushoverURL : String
  deriving DecidableEq, Repr

/-- Function `NewConfig` from config.go. -/
def newConfig : Config :=
  { pushoverUserKey := "", pushoverAPIToken := "", bearerToken := ""
    port := ":8080", pushoverURL := "https://api.pushover.net/1/messages.json" }

/-- Type `ConfigValidator` from config.go: the argument is a `*Config` (`none`
models a nil pointer); the result is the error, if any. -/
abbrev ConfigValidator : Type := Option Config → Option String

/-- Type `ConfigLoader` from config.go: a loader returns `(*Config, error)`;
every loader in this codebase is pure, so a loader is modeled by its
result — either an error or a possibly-nil configuration pointer. -/
abbrev ConfigLoader : Type := Except String (Option Config)

/-- The configuration built by the closure returned by `LoadFromEnv`
(config.go), for a given environment lookup function. -/
def loadFromEnvConfig (getEnv : String → String) : Config :=
  let cfg := newConfig
  let cfg := { cfg with pushoverUserKey := getEnv "PUSHOVER_USER_KEY",
                        pushoverAPIToken := getEnv "PUSHOVER_API_TOKEN" }
  let cfg := if getEnv "PORT" ≠ "" then { cfg with port := ":" ++ getEnv "PORT" } else cfg
  let cfg := if getEnv "PUSHOVER_URL" ≠ "" then { cfg with pushoverURL := getEnv "PUSHOVER_URL" } else cfg
  if cfg.pushoverAPIToken ≠ "" then { cfg with bearerToken := "Bearer " ++ cfg.pushoverAPIToken } else cfg

/-- Function `LoadFromEnv` from config.go: the returned loader never errors and
never returns a nil pointer. -/
def loadFromEnv (getEnv : String → String) : ConfigLoader :=
  .ok (some (loadFromEnvConfig getEnv))

/-- Function `ValidateConfig` from config.go. -/
def validateConfig : ConfigValidator
  | none => some "config is nil"
  | some cfg =>
    if cfg.pushoverUserKey = "" then some "PUSHOVER_USER_KEY is required"
    else if cfg.pushoverAPIToken = "" then some "PUSHOVER_API_TOKEN is required"
    else none

/-- The validator loop inside `WithValidation` (config.go): on the first
validator error, return it; otherwise return the configuration. -/
def runValidators : List ConfigValidator → Option Config → Except String (Option Config)
  | [], cfg => .ok cfg
  | v :: vs, cfg =>
    match v cfg with
    | some e => .error e
    | none => runValidators vs cfg

/-- Function `WithValidation` from config.go (the variadic validators become a list). -/
def withValidation (loader : ConfigLoader) (validators : List ConfigValidator) : ConfigLoader :=
  match loader with
  | .error e => .error e
  | .ok cfg => runValidators validators cfg

/-- Stated from the spec's words ("the first failing validator
short-circuits and its error is returned verbatim"): the error of the
first validator that rejects the configuration, if any. Used to compare
`withValidation` against the spec. -/
def specFirstFailingError : List ConfigValidator → Option Config → Option String
  | [], _ => none
  | v :: vs, cfg =>
    match v cfg with
    | some e => some e
    | none => specFirstFailingError vs cfg

/-! ## Upstream notification client (internal/pushover/client.go) -/

/-- An HTTP response as seen by `SendMessage`: status code and body. -/
structure HTTPResponse where
  statusCode : Nat
  respBody : String
  deriving DecidableEq, Repr

/-- An outbound HTTP request as built by `SendMessage`. -/
structure HTTPRequest where
  method : String
  url : String
  contentType : String
  reqBody : String
  deriving DecidableEq, Repr

/-- Encoding `url.Values.Encode()` over the four fields set by `SendMessage`
(client.go): keys are emitted in sorted order (message, title, token,
user). Percent-escaping of the values is not modeled; no claim depends
on it. -/
def formEncodeMessage (msg : PushoverMessage) : String :=
  "message=" ++ msg.message ++ "&title=" ++ msg.title ++
    "&token=" ++ msg.token ++ "&user=" ++ msg.user

/-- The request built by `SendMessage` (client.go).
`http.NewRequestWithContext` with method "POST" fails only on an
unparsable URL; request construction is modeled as succeeding. -/
def mkPushoverRequest (clientUrl : String) (msg : PushoverMessage) : HTTPRequest :=
  { method := "POST", url := clientUrl, contentType := contentTypeForm,
    reqBody := formEncodeMessage msg }

/-- Function `SendMessage` from client.go. `doReq` models `p.client.Do` of the
injected `HTTPClient`; the message pointer is an `Option`; the result
pairs the returned error (if any) with whether an HTTP call was issued.
The non-200 branch reads at most 512 bytes of the response body
(`io.ReadAll(io.LimitReader(resp.Body, 512))`). -/
def sendMessage (doReq : HTTPRequest → Except String HTTPResponse)
    (clientUrl : String) (msg : Option PushoverMessage) : Option String × Bool :=
  match msg with
  | none => (some "message is nil", false)
  | some m =>
    match doReq (mkPushoverRequest clientUrl m) with
    | .error e => (some ("failed to send request: " ++ e), true)
    | .ok resp =>
      if resp.statusCode ≠ 200 then
        (some ("pushover API returned status " ++ toString resp.statusCode ++ ": " ++
          String.mk (resp.respBody.data.take 512)), true)
      else (none, true)

/-! ## JSON decoding of the alert body

handlers.go decodes the request body with `json.NewDecoder(r.Body)` plus
`DisallowUnknownFields`, where `r.Body` is wrapped by
`http.MaxBytesReader(w, r.Body, types.MaxBodySize)`. The decoder below is
a faithful executable subset of `encoding/json` for the `FluxAlert`
schema: objects with string-typed fields, the two nested flat objects
`involvedObject` and `metadata`, unknown fields rejected. Subset
restrictions (escape sequences, non-string JSON values, case-insensitive
field matching are all rejected/not modeled) only narrow the set of
accepted bodies; every claim involving decoding is either conditioned on
a successful decode or established at inputs inside the subset. -/

/-- The character `{` (written via an escape so that braces never occur
in the source text of a literal). -/
def braceOpen : Char := '\x7b'

/-- The character `}`. -/
def braceClose : Char := '\x7d'

/-- JSON insignificant whitespace. -/
def isJsonWs (c : Char) : Bool :=
  c == ' ' || c == '\t' || c == '\n' || c == '\r'

/-- Skip insignificant whitespace. -/
def skipWs : List Char → List Char
  | [] => []
  | c :: cs => if isJsonWs c then skipWs cs else c :: cs

/-- Parse the remainder of a JSON string literal after the opening quote.
Subset: escape sequences are rejected. -/
def parseQuoted : List Char → Except Unit (String × List Char)
  | [] => .error ()
  | c :: cs =>
    if c = '"' then .ok ("", cs)
    else if c = '\\' then .error ()
    else
      match parseQuoted cs with
      | .ok (s, rest) => .ok (String.mk (c :: s.data), rest)
      | .error _ => .error ()

/-- Known fields of the nested `involvedObject` object; any other key is
rejected (`DisallowUnknownFields`). -/
def applyInvolvedField (o : InvolvedObject) : String → String → Option InvolvedObject
  | "kind", v => some { o with kind := v }
  | "namespace", v => some { o with nspace := v }
  | "name", v => some { o with name := v }
  | "uid", v => some { o with uid := v }
  | "apiVersion", v => some { o with apiVersion := v }
  | "resourceVersion", v => some { o with resourceVersion := v }
  | _, _ => none

/-- Known fields of the nested `metadata` object. -/
def applyMetadataField (md : AlertMetadata) : String → String → Option AlertMetadata
  | "commit_status", v => some { md with commitStatus := v }
  | "revision", v => some { md with revision := v }
  | "summary", v => some { md with summary := v }
  | _, _ => none

/-- Known string-typed top-level fields of the alert object: returns the
field update, or `none` for an unknown key. -/
def applyTopStringField (acc : FluxAlert) : String → Option (String → FluxAlert)
  | "severity" => some fun v => { acc with severity := v }
  | "timestamp" => some fun v => { acc with timestamp := v }
  | "message" => some fun v => { acc with message := v }
  | "reason" => some fun v => { acc with reason := v }
  | "reportingController" => some fun v => { acc with reportingController := v }
  | "reportingInstance" => some fun v => { acc with reportingInstance := v }
  | _ => none

/-- Parse the pairs of a flat JSON object whose values are all strings,
positioned right after the opening brace of a non-empty object. Each pair
consumes at least one character, so `fuel` bounds the pair count. -/
def parseFlatPairs {σ : Type} (applyField : σ → String → String → Option σ) :
    Nat → σ → List Char → Except Unit (σ × List Char)
  | 0, _, _ => .error ()
  | fuel + 1, acc, input =>
    match skipWs input with
    | [] => .error ()
    | c :: r1 =>
      if c = '"' then
        match parseQuoted r1 with
        | .error _ => .error ()
        | .ok (key, r2) =>
          match skipWs r2 with
          | [] => .error ()
          | c2 :: r3 =>
            if c2 = ':' then
              match skipWs r3 with
              | [] => .error ()
              | c3 :: r4 =>
                if c3 = '"' then
                  match parseQuoted r4 with
                  | .error _ => .error ()
                  | .ok (value, r5) =>
                    match applyField acc key value with
                    | none => .error ()
                    | some acc2 =>
                      match skipWs r5 with
                      | [] => .error ()
                      | c4 :: r6 =>
                        if c4 = ',' then parseFlatPairs applyField fuel acc2 r6
                        else if c4 = braceClose then .ok (acc2, r6)
                        else .error ()
                else .error ()
            else .error ()
      else .error ()

/-- Parse a flat JSON object (used for `involvedObject` and `metadata`). -/
def parseFlatObject {σ : Type} (applyField : σ → String → String → Option σ)
    (fuel : Nat) (acc : σ) (input : List Char) : Except Unit (σ × List Char) :=
  match skipWs input with
  | [] => .error ()
  | c :: r1 =>
    if c = braceOpen then
      match skipWs r1 with
      | [] => .error ()
      | c2 :: r2 =>
        if c2 = braceClose then .ok (acc, r2)
        else parseFlatPairs applyField fuel acc r1
    else .error ()

/-- Parse the top-level pairs of the alert object, positioned right after
the opening brace of a non-empty object. -/
def parseTopPairs : Nat → FluxAlert → List Char → Except Unit (FluxAlert × List Char)
  | 0, _, _ => .error ()
  | fuel + 1, acc, input =>
    match skipWs input with
    | [] => .error ()
    | c :: r1 =>
      if c = '"' then
        match parseQuoted r1 with
        | .error _ => .error ()
        | .ok (key, r2) =>
          match skipWs r2 with
          | [] => .error ()
          | c2 :: r3 =>
            if c2 = ':' then
              let step : Except Unit (FluxAlert × List Char) :=
                if key = "involvedObject" then
                  match parseFlatObject applyInvolvedField fuel acc.involvedObject r3 with
                  | .ok (o, r) => .ok ({ acc with involvedObject := o }, r)
                  | .error _ => .error ()
                else if key = "metadata" then
                  match parseFlatObject applyMetadataField fuel acc.metadata r3 with
                  | .ok (md, r) => .ok ({ acc with metadata := md }, r)
                  | .error _ => .error ()
                else
                  match applyTopStringField acc key with
                  | none => .error ()
                  | some setter =>
                    match skipWs r3 with
                    | [] => .error ()
                    | c3 :: r4 =>
                      if c3 = '"' then
                        match parseQuoted r4 with
                        | .ok (value, r5) => .ok (setter value, r5)
                        | .error _ => .error ()
                      else .error ()
              match step with
              | .error _ => .error ()
              | .ok (acc2, r5) =>
                match skipWs r5 with
                | [] => .error ()
                | c4 :: r6 =>
                  if c4 = ',' then parseTopPairs fuel acc2 r6
                  else if c4 = braceClose then .ok (acc2, r6)
                  else .error ()
            else .error ()
      else .error ()

/-- Step `decoder.Decode(&alert)` with `DisallowUnknownFields` (handlers.go):
reads the FIRST JSON value from the body and decodes it into a
`FluxAlert` starting from the zero value, returning the decoded alert
together with the unread remainder of the body. The decoder consumes only
that first value; trailing bytes are left unread. -/
def decodeFluxAlert (input : List Char) : Except Unit (FluxAlert × List Char) :=
  match skipWs input with
  | [] => .error ()
  | c :: r1 =>
    if c = braceOpen then
      match skipWs r1 with
      | [] => .error ()
      | c2 :: r2 =>
        if c2 = braceClose then .ok (emptyAlert, r2)
        else parseTopPairs (input.length + 1) emptyAlert r1
    else .error ()

/-- The decode step of the webhook handler: the body is read through
`http.MaxBytesReader(w, r.Body, types.MaxBodySize)`, which fails a read
only after `limit` bytes have been consumed. `Decode` reads only the
first JSON value, so the size limiter triggers exactly when that value is
not complete within the first `limit` bytes; a value decoded entirely
within the limit is returned even if the full body is larger. All decode
failures (over-size, syntax, unknown field) surface as the same error and
are answered identically by the handler. -/
def limitedDecodeAlert (limit : Nat) (body : List Char) : Except Unit FluxAlert :=
  match decodeFluxAlert body with
  | .ok (a, rest) => if body.length - rest.length ≤ limit then .ok a else .error ()
  | .error _ => .error ()

/-! ## Webhook handler (internal/handlers/handlers.go) -/

/-- Which branch of `CreateWebhookHandler` produced the response
(instrumentation; the Go code writes the response from exactly one of
these program points). -/
inductive HandlerStep where
  | options
  | methodCheck
  | auth
  | parse
  | validate
  | testMode
  | sendError
  | success
  deriving DecidableEq, Repr

/-- An inbound webhook request: method, `Authorization` header
(`r.Header.Get` returns `""` when the header is missing), and raw body. -/
structure WebhookRequest where
  method : String
  authorization : String
  body : List Char
  deriving DecidableEq, Repr

/-- The observable outcome of one webhook request: response status and
body, whether the message builder (transformer) was invoked, whether the
Pushover client was invoked, and the branch that responded. -/
structure HandlerTrace where
  status : Nat
  respBody : String
  builderCalled : Bool
  clientCalled : Bool
  origin : HandlerStep
  deriving DecidableEq, Repr

/-- Function `CreatePushoverMessage` from message.go. -/
def createPushoverMessage (cfg : Config) (message : String) : PushoverMessage :=
  { token := cfg.pushoverAPIToken, user := cfg.pushoverUserKey,
    title := appTitle, message := message }

/-- Function `CreateWebhookHandler` from handlers.go. `send` models
`deps.PushoverClient.SendMessage` (the injected `PushoverSender`),
`builder` models `deps.MessageBuilder`; logging has no observable effect
on the response and is omitted. -/
def webhookHandler (cfg : Config) (send : PushoverMessage → Except String Unit)
    (builder : FluxAlert → String) (req : WebhookRequest) : HandlerTrace :=
  if req.method = "OPTIONS" then
    { status := 200, respBody := "", builderCalled := false, clientCalled := false,
      origin := .options }
  else if req.method ≠ "POST" then
    { status := 405, respBody := responseMethodNotAllowed, builderCalled := false,
      clientCalled := false, origin := .methodCheck }
  else if req.authorization ≠ cfg.bearerToken then
    { status := 401, respBody := responseUnauthorized, builderCalled := false,
      clientCalled := false, origin := .auth }
  else
    match limitedDecodeAlert maxBodySize req.body with
    | .error _ =>
      { status := 400, respBody := responseInvalidJSON, builderCalled := false,
        clientCalled := false, origin := .parse }
    | .ok alert =>
      match validateAlert (some alert) with
      | some _ =>
        { status := 400, respBody := responseInvalidJSON, builderCalled := false,
          clientCalled := false, origin := .validate }
      | none =>
        let message := builder alert
        if cfg.pushoverAPIToken = "test_api_token" then
          { status := 200, respBody := responseOK, builderCalled := true,
            clientCalled := false, origin := .testMode }
        else
          match send (createPushoverMessage cfg message) with
          | .error e =>
            { status := 500,
              respBody := "\x7b\"error\": \"Failed to send to Pushover\", \"details\": \"" ++ e ++ "\"\x7d",
              builderCalled := true, clientCalled := true, origin := .sendError }
          | .ok _ =>
            { status := 200, respBody := responseOK, builderCalled := true,
              clientCalled := true, origin := .success }


/-! ## Concrete inputs used by witnesses and counterexamples -/

def cfgAuth : Config :=
  { pushoverUserKey := "user", pushoverAPIToken := "secret",
    bearerToken := "Bearer secret", port := ":8080",
    pushoverURL := "https://api.pushover.net/1/messages.json" }

def reqNoAuth : WebhookRequest :=
  { method := "POST", authorization := "", body := [braceOpen, braceClose] }

def cfgTestMode : Config :=
  { pushoverUserKey := "user", pushoverAPIToken := "test_api_token",
    bearerToken := "Bearer test_api_token", port := ":8080",
    pushoverURL := "https://api.pushover.net/1/messages.json" }

def reqTestMode : WebhookRequest :=
  { method := "POST", authorization := "Bearer test_api_token",
    body := [braceOpen, braceClose] }

def reqSendFail : WebhookRequest :=
  { method := "POST", authorization := "Bearer secret",
    body := [braceOpen, braceClose] }

/-- A 1 MiB + 2 byte body whose first JSON value is the two-byte document
`\x7b\x7d`. -/
def oversizedBody : List Char :=
  braceOpen :: braceClose :: List.replicate maxBodySize 'x'

def reqOversized : WebhookRequest :=
  { method := "POST", authorization := "Bearer test_api_token", body := oversizedBody }

/-- An authenticated POST whose body is a single malformed document of
2^20 + 1 bytes (as in the repository's own oversized-payload test, where
the body is one JSON document larger than the cap). -/
def reqHugeDoc : WebhookRequest :=
  { method := "POST", authorization := "Bearer secret",
    body := List.replicate (maxBodySize + 1) 'x' }

end FluxPushover

namespace FluxPushover

/-! ## Claims about the transformer -/

/-- C1: for every alert record whose fields are all empty strings,
`BuildPushoverMessage` returns exactly
`"Unknown [INFO]\nNo Message\n\nController: Unknown\nObject: unknown/Unknown\nRevision: Unknown\n"`
(object kind rendered as lowercase `unknown`, every other default
capitalized `Unknown`, trailing newline included). -/
theorem buildPushoverMessage_all_empty (a : FluxAlert)
    (h1 : a.involvedObject.kind = "") (h2 : a.involvedObject.nspace = "")
    (h3 : a.involvedObject.name = "") (h4 : a.involvedObject.uid = "")
    (h5 : a.involvedObject.apiVersion = "") (h6 : a.involvedObject.resourceVersion = "")
    (h7 : a.severity = "") (h8 : a.timestamp = "") (h9 : a.message = "")
    (h10 : a.reason = "") (h11 : a.metadata.commitStatus = "")
    (h12 : a.metadata.revision = "") (h13 : a.metadata.summary = "")
    (h14 : a.reportingController = "") (h15 : a.reportingInstance = "") :
    buildPushoverMessage a =
      "Unknown [INFO]\nNo Message\n\nController: Unknown\nObject: unknown/Unknown\nRevision: Unknown\n" := by
  simp only [buildPushoverMessage, normalizeString, defaultIfEmpty,
    h1, h3, h7, h9, h10, h12, h14]
  rfl

/-- Witness for C1 at the all-empty alert record. -/
theorem buildPushoverMessage_all_empty_witness :
    buildPushoverMessage emptyAlert =
      "Unknown [INFO]\nNo Message\n\nController: Unknown\nObject: unknown/Unknown\nRevision: Unknown\n" :=
  buildPushoverMessage_all_empty emptyAlert rfl rfl rfl rfl rfl rfl rfl rfl rfl rfl
    rfl rfl rfl rfl rfl

/-- C4: for every alert record, the severity slot of the transformer's
output is the uppercase of (the alert's severity if non-empty, else
`"INFO"`), and the object-kind slot is the lowercase of (the alert's kind
if non-empty, else `"Unknown"`); the theorem exhibits the full output with
those two slots in that form. -/
theorem buildPushoverMessage_severity_kind (a : FluxAlert) :
    buildPushoverMessage a =
      defaultIfEmpty a.reason "Unknown" ++ " [" ++
      goToUpper (if a.severity = "" then "INFO" else a.severity) ++ "]\n" ++
      defaultIfEmpty a.message "No Message" ++ "\n\nController: " ++
      defaultIfEmpty a.reportingController "Unknown" ++ "\nObject: " ++
      goToLower (if a.involvedObject.kind = "" then "Unknown" else a.involvedObject.kind) ++
      "/" ++ defaultIfEmpty a.involvedObject.name "Unknown" ++ "\nRevision: " ++
      defaultIfEmpty a.metadata.revision "Unknown" ++ "\n" := by
  simp only [buildPushoverMessage, normalizeString, defaultSeverity, defaultValue,
    noMessage]
  by_cases h1 : a.severity = "" <;> by_cases h2 : a.involvedObject.kind = "" <;>
    simp [h1, h2]

/-! ## Claims about the configuration loader -/

theorem loadFromEnvConfig_userKey (getEnv : String → String) :
    (loadFromEnvConfig getEnv).pushoverUserKey = getEnv "PUSHOVER_USER_KEY" := by
  unfold loadFromEnvConfig newConfig
  by_cases h1 : getEnv "PORT" = "" <;> by_cases h2 : getEnv "PUSHOVER_URL" = "" <;>
    by_cases h3 : getEnv "PUSHOVER_API_TOKEN" = "" <;> simp [h1, h2, h3]

theorem loadFromEnvConfig_apiToken (getEnv : String → String) :
    (loadFromEnvConfig getEnv).pushoverAPIToken = getEnv "PUSHOVER_API_TOKEN" := by
  unfold loadFromEnvConfig newConfig
  by_cases h1 : getEnv "PORT" = "" <;> by_cases h2 : getEnv "PUSHOVER_URL" = "" <;>
    by_cases h3 : getEnv "PUSHOVER_API_TOKEN" = "" <;> simp [h1, h2, h3]

/-- C3 counterexample: with an environment lookup function where every
variable — in particular PUSHOVER_API_TOKEN — is empty, the loaded
configuration's BearerToken is the empty string, not
`"Bearer " ++ "" = "Bearer "` as the claim requires. -/
theorem loadFromEnv_bearer_counterexample :
    (fun _ => "" : String → String) "PUSHOVER_API_TOKEN" = "" ∧
    (loadFromEnvConfig (fun _ => "")).bearerToken ≠
      "Bearer " ++ (fun _ => "" : String → String) "PUSHOVER_API_TOKEN" := by
  exact ⟨rfl, by decide⟩

/-- C3 (amended): for every environment lookup function, the derived
BearerToken equals `"Bearer "` concatenated with the configured API token
whenever that token is non-empty; when the token is empty the BearerToken
is the empty string (the pre-computation step is skipped). -/
theorem loadFromEnv_bearerToken (getEnv : String → String) :
    (loadFromEnvConfig getEnv).bearerToken =
      if getEnv "PUSHOVER_API_TOKEN" = "" then ""
      else "Bearer " ++ getEnv "PUSHOVER_API_TOKEN" := by
  unfold loadFromEnvConfig newConfig
  by_cases h1 : getEnv "PORT" = "" <;> by_cases h2 : getEnv "PUSHOVER_URL" = "" <;>
    by_cases h3 : getEnv "PUSHOVER_API_TOKEN" = "" <;> simp [h1, h2, h3]

/-- C9: the validated loader returns the loaded configuration unchanged
when every validator accepts it and otherwise returns the error of the
first failing validator verbatim, later validators unapplied (first
conjunct, via `specFirstFailingError`); with the standard validator,
loading from an environment fails exactly when PUSHOVER_USER_KEY or
PUSHOVER_API_TOKEN is empty, checking the user key first (second
conjunct). -/
theorem withValidation_spec :
    (∀ (loader : ConfigLoader) (validators : List ConfigValidator),
      withValidation loader validators =
        match loader with
        | .error e => .error e
        | .ok cfg =>
          match specFirstFailingError validators cfg with
          | some e => .error e
          | none => .ok cfg) ∧
    (∀ getEnv : String → String,
      withValidation (loadFromEnv getEnv) [validateConfig] =
        if getEnv "PUSHOVER_USER_KEY" = "" then .error "PUSHOVER_USER_KEY is required"
        else if getEnv "PUSHOVER_API_TOKEN" = "" then .error "PUSHOVER_API_TOKEN is required"
        else .ok (some (loadFromEnvConfig getEnv))) := by
  constructor
  · intro loader validators
    cases loader with
    | error e => rfl
    | ok cfg =>
      show runValidators validators cfg = _
      induction validators with
      | nil => rfl
      | cons v vs ih =>
        simp only [runValidators, specFirstFailingError]
        cases hv : v cfg with
        | some e => rfl
        | none => exact ih
  · intro getEnv
    show runValidators [validateConfig] (some (loadFromEnvConfig getEnv)) = _
    simp only [runValidators, validateConfig, loadFromEnvConfig_userKey,
      loadFromEnvConfig_apiToken]
    by_cases h1 : getEnv "PUSHOVER_USER_KEY" = "" <;>
      by_cases h2 : getEnv "PUSHOVER_API_TOKEN" = "" <;> simp [h1, h2]

/-! ## Claims about the upstream notification client -/

/-- C8: `SendMessage` classifies its result: for a nil message it returns
a "message is nil" error without issuing any HTTP call; for a transport
error it returns a wrapped "failed to send request" error; for a response
with status other than 200 it returns an error embedding the numeric
status and at most 512 bytes of the response body; for a 200 response it
returns success. -/
theorem sendMessage_classification :
    (∀ (doReq : HTTPRequest → Except String HTTPResponse) (u : String),
      sendMessage doReq u none = (some "message is nil", false)) ∧
    (∀ (doReq : HTTPRequest → Except String HTTPResponse) (u : String)
        (m : PushoverMessage) (e : String),
      doReq (mkPushoverRequest u m) = .error e →
      sendMessage doReq u (some m) = (some ("failed to send request: " ++ e), true)) ∧
    (∀ (doReq : HTTPRequest → Except String HTTPResponse) (u : String)
        (m : PushoverMessage) (resp : HTTPResponse),
      doReq (mkPushoverRequest u m) = .ok resp → resp.statusCode ≠ 200 →
      sendMessage doReq u (some m) =
        (some ("pushover API returned status " ++ toString resp.statusCode ++ ": " ++
          String.mk (resp.respBody.data.take 512)), true) ∧
      (String.mk (resp.respBody.data.take 512)).length ≤ 512) ∧
    (∀ (doReq : HTTPRequest → Except String HTTPResponse) (u : String)
        (m : PushoverMessage) (resp : HTTPResponse),
      doReq (mkPushoverRequest u m) = .ok resp → resp.statusCode = 200 →
      sendMessage doReq u (some m) = (none, true)) := by
  refine ⟨fun _ _ => rfl, ?_, ?_, ?_⟩
  · intro doReq u m e h
    simp [sendMessage, h]
  · intro doReq u m resp h hne
    refine ⟨by simp [sendMessage, h, hne], ?_⟩
    show (resp.respBody.data.take 512).length ≤ 512
    exact List.length_take_le 512 resp.respBody.data
  · intro doReq u m resp h h200
    simp [sendMessage, h, h200]

/-- Witness for C8 at concrete inputs exercising each classified case. -/
theorem sendMessage_classification_witness :
    sendMessage (fun _ => .ok ⟨200, ""⟩) "http://u" none = (some "message is nil", false) ∧
    sendMessage (fun _ => .error "dial tcp: refused") "http://u"
      (some ⟨"t", "u", "FluxCD", "m"⟩) =
      (some "failed to send request: dial tcp: refused", true) ∧
    sendMessage (fun _ => .ok ⟨400, "bad token"⟩) "http://u"
      (some ⟨"t", "u", "FluxCD", "m"⟩) =
      (some "pushover API returned status 400: bad token", true) ∧
    sendMessage (fun _ => .ok ⟨200, "ok body"⟩) "http://u"
      (some ⟨"t", "u", "FluxCD", "m"⟩) = (none, true) := by
  refine ⟨sendMessage_classification.1 _ _,
    sendMessage_classification.2.1 _ _ _ _ rfl, ?_,
    sendMessage_classification.2.2.2 _ _ _ _ rfl rfl⟩
  have h := (sendMessage_classification.2.2.1 (fun _ => .ok ⟨400, "bad token"⟩)
    "http://u" ⟨"t", "u", "FluxCD", "m"⟩ ⟨400, "bad token"⟩ rfl (by decide)).1
  exact h.trans (by decide)

/-! ## Claims about the webhook handler -/

theorem strAppend_assoc (a b c : String) : (a ++ b) ++ c = a ++ (b ++ c) :=
  congrArg String.mk (List.append_assoc a.data b.data c.data)

theorem bearer_ne_empty (t : String) : ("Bearer " ++ t : String) ≠ "" := by
  intro h
  have hd := congrArg String.data h
  simp only [String.data_append] at hd
  exact List.noConfusion hd

/-- C5: for every POST whose Authorization header is missing (empty, as
`r.Header.Get` yields for an absent header) or different from the
pre-computed bearer credential (a string of the form `"Bearer " ++ t`),
the handler responds 401 with the Unauthorized body and neither the
message transformer nor the notification client is invoked. -/
theorem webhook_unauthorized (cfg : Config) (send : PushoverMessage → Except String Unit)
    (builder : FluxAlert → String) (req : WebhookRequest) (t : String)
    (hb : cfg.bearerToken = "Bearer " ++ t)
    (hm : req.method = "POST")
    (ha : req.authorization = "" ∨ req.authorization ≠ cfg.bearerToken) :
    webhookHandler cfg send builder req =
      { status := 401, respBody := responseUnauthorized, builderCalled := false,
        clientCalled := false, origin := .auth } := by
  have hne : req.authorization ≠ cfg.bearerToken := by
    rcases ha with h | h
    · rw [h, hb]
      exact fun hc => bearer_ne_empty t hc.symm
    · exact h
  have hopt : ¬ (("POST" : String) = "OPTIONS") := by decide
  simp [webhookHandler, hm, hopt, hne]


/-- Witness for C5: a POST with a missing Authorization header. -/
theorem webhook_unauthorized_witness :
    webhookHandler cfgAuth (fun _ => .ok ()) buildPushoverMessage reqNoAuth =
      { status := 401, respBody := responseUnauthorized, builderCalled := false,
        clientCalled := false, origin := .auth } :=
  webhook_unauthorized cfgAuth (fun _ => .ok ()) buildPushoverMessage reqNoAuth
    "secret" rfl rfl (Or.inl rfl)

/-- C6: for every authenticated, well-formed webhook POST (the body
decodes within the size limit), if the configured API token is the
sentinel `"test_api_token"` then the handler responds 200 with body
`\x7b"status": "ok"\x7d` and the outbound notification client is never
invoked. -/
theorem webhook_test_mode (cfg : Config) (send : PushoverMessage → Except String Unit)
    (builder : FluxAlert → String) (req : WebhookRequest) (a : FluxAlert)
    (hm : req.method = "POST")
    (ha : req.authorization = cfg.bearerToken)
    (hd : limitedDecodeAlert maxBodySize req.body = .ok a)
    (ht : cfg.pushoverAPIToken = "test_api_token") :
    webhookHandler cfg send builder req =
      { status := 200, respBody := responseOK, builderCalled := true,
        clientCalled := false, origin := .testMode } := by
  have hopt : ¬ (("POST" : String) = "OPTIONS") := by decide
  simp [webhookHandler, hm, hopt, ha, hd, ht, validateAlert]


/-- Witness for C6: an authenticated POST with body `\x7b\x7d` under the
sentinel API token; the injected sender errors if ever called. -/
theorem webhook_test_mode_witness :
    webhookHandler cfgTestMode (fun _ => .error "must not be called")
      buildPushoverMessage reqTestMode =
      { status := 200, respBody := responseOK, builderCalled := true,
        clientCalled := false, origin := .testMode } :=
  webhook_test_mode cfgTestMode (fun _ => .error "must not be called")
    buildPushoverMessage reqTestMode emptyAlert rfl rfl rfl rfl

/-- C7: for every authenticated, well-formed webhook POST where the
notification client returns an error, the handler responds with status
exactly 500 and a JSON body containing the literal substring
`"error": "Failed to send to Pushover"`. -/
theorem webhook_send_failure (cfg : Config) (send : PushoverMessage → Except String Unit)
    (builder : FluxAlert → String) (req : WebhookRequest) (a : FluxAlert) (e : String)
    (hm : req.method = "POST")
    (ha : req.authorization = cfg.bearerToken)
    (hd : limitedDecodeAlert maxBodySize req.body = .ok a)
    (ht : cfg.pushoverAPIToken ≠ "test_api_token")
    (hs : send (createPushoverMessage cfg (builder a)) = .error e) :
    (webhookHandler cfg send builder req).status = 500 ∧
    ∃ pre post : String,
      (webhookHandler cfg send builder req).respBody =
        pre ++ "\"error\": \"Failed to send to Pushover\"" ++ post := by
  have hopt : ¬ (("POST" : String) = "OPTIONS") := by decide
  have hh : webhookHandler cfg send builder req =
      { status := 500,
        respBody := "\x7b\"error\": \"Failed to send to Pushover\", \"details\": \"" ++ e ++ "\"\x7d",
        builderCalled := true, clientCalled := true, origin := .sendError } := by
    simp [webhookHandler, hm, hopt, ha, hd, ht, hs, validateAlert]
  rw [hh]
  refine ⟨rfl, "\x7b", ", \"details\": \"" ++ e ++ "\"\x7d", ?_⟩
  show ("\x7b\"error\": \"Failed to send to Pushover\", \"details\": \"" ++ e) ++ "\"\x7d" =
    ("\x7b" ++ "\"error\": \"Failed to send to Pushover\"") ++
      ((", \"details\": \"" ++ e) ++ "\"\x7d")
  have hlit : ("\x7b\"error\": \"Failed to send to Pushover\", \"details\": \"" : String) =
      ("\x7b" ++ "\"error\": \"Failed to send to Pushover\"") ++ ", \"details\": \"" := by decide
  rw [hlit]
  simp only [strAppend_assoc]


/-- Witness for C7: an authenticated POST whose injected sender fails. -/
theorem webhook_send_failure_witness :
    (webhookHandler cfgAuth (fun _ => .error "boom") buildPushoverMessage reqSendFail).status = 500 ∧
    ∃ pre post : String,
      (webhookHandler cfgAuth (fun _ => .error "boom") buildPushoverMessage reqSendFail).respBody =
        pre ++ "\"error\": \"Failed to send to Pushover\"" ++ post :=
  webhook_send_failure cfgAuth (fun _ => .error "boom") buildPushoverMessage
    reqSendFail emptyAlert "boom" rfl rfl rfl (by decide) rfl

/-! ## Body-size bound (C2) -/

theorem skipWs_not_ws {c : Char} (h : isJsonWs c = false) (rest : List Char) :
    skipWs (c :: rest) = c :: rest := by
  simp [skipWs, h]

/-- The decoder consumes exactly the two bytes of a leading `\x7b\x7d`
document and leaves the rest of the body unread. -/
theorem decodeFluxAlert_emptyObj (rest : List Char) :
    decodeFluxAlert (braceOpen :: braceClose :: rest) = .ok (emptyAlert, rest) := by
  have h1 : skipWs (braceOpen :: braceClose :: rest) = braceOpen :: braceClose :: rest :=
    skipWs_not_ws (by decide) _
  have h2 : skipWs (braceClose :: rest) = braceClose :: rest :=
    skipWs_not_ws (by decide) _
  simp [decodeFluxAlert, h1, h2]

/-- A body starting with a byte that opens no JSON object is rejected at
once, whatever follows. -/
theorem decodeFluxAlert_x (rest : List Char) :
    decodeFluxAlert ('x' :: rest) = .error () := by
  have h1 : skipWs ('x' :: rest) = 'x' :: rest := skipWs_not_ws (by decide) _
  have h2 : ¬ (('x' : Char) = braceOpen) := by decide
  simp [decodeFluxAlert, h1, h2]

/-- For any limit of at least two bytes, a body whose first JSON value is
the two-byte document `\x7b\x7d` decodes successfully through the size
limiter, whatever (and however much) follows. -/
theorem limitedDecode_emptyObj (limit : Nat) (junk : List Char) (h2 : 2 ≤ limit) :
    limitedDecodeAlert limit (braceOpen :: braceClose :: junk) = .ok emptyAlert := by
  have h := decodeFluxAlert_emptyObj junk
  unfold limitedDecodeAlert
  rw [h]
  show (if (braceOpen :: braceClose :: junk).length - junk.length ≤ limit
      then (Except.ok emptyAlert : Except Unit FluxAlert) else .error ()) = .ok emptyAlert
  rw [List.length_cons, List.length_cons]
  rw [if_pos (by omega)]

/-- A body whose first byte opens no JSON object is rejected by the
limited decode, whatever follows. -/
theorem limitedDecode_x (limit : Nat) (rest : List Char) :
    limitedDecodeAlert limit ('x' :: rest) = .error () := by
  have h := decodeFluxAlert_x rest
  unfold limitedDecodeAlert
  rw [h]

/-- Generic characterization of the test-mode branch, shared by the C6
theorem's witness-style instantiations and the C2 counterexample. -/
theorem handler_testMode_eq (cfg : Config) (send : PushoverMessage → Except String Unit)
    (builder : FluxAlert → String) (req : WebhookRequest) (a : FluxAlert)
    (hm : req.method = "POST")
    (ha : req.authorization = cfg.bearerToken)
    (hd : limitedDecodeAlert maxBodySize req.body = .ok a)
    (ht : cfg.pushoverAPIToken = "test_api_token") :
    webhookHandler cfg send builder req =
      { status := 200, respBody := responseOK, builderCalled := true,
        clientCalled := false, origin := .testMode } := by
  have hopt : ¬ (("POST" : String) = "OPTIONS") := by decide
  simp [webhookHandler, hm, hopt, ha, hd, ht, validateAlert]


theorem oversizedBody_decode :
    limitedDecodeAlert maxBodySize oversizedBody = .ok emptyAlert :=
  limitedDecode_emptyObj maxBodySize (List.replicate maxBodySize 'x')
    (by norm_num [maxBodySize])


/-- C2 counterexample: an authenticated POST whose body is larger than
1 MiB — the two-byte JSON document `\x7b\x7d` followed by 2^20 junk
bytes — is NOT answered with 400: JSON decoding completes (the decoder
reads only the first JSON value, which lies within the size cap) and the
handler responds 200, refuting the claim at this input. -/
theorem webhook_oversized_counterexample :
    reqOversized.method = "POST" ∧
    reqOversized.authorization = cfgTestMode.bearerToken ∧
    maxBodySize < reqOversized.body.length ∧
    limitedDecodeAlert maxBodySize reqOversized.body = .ok emptyAlert ∧
    (webhookHandler cfgTestMode (fun _ => .ok ()) buildPushoverMessage reqOversized).status
      = 200 := by
  have hd : limitedDecodeAlert maxBodySize reqOversized.body = .ok emptyAlert :=
    oversizedBody_decode
  have hh := handler_testMode_eq cfgTestMode (fun _ => .ok ()) buildPushoverMessage
    reqOversized emptyAlert rfl rfl hd rfl
  refine ⟨rfl, rfl, ?_, hd, ?_⟩
  · show maxBodySize < oversizedBody.length
    rw [show oversizedBody.length = maxBodySize + 1 + 1 by
      show (braceOpen :: braceClose :: List.replicate maxBodySize 'x').length = _
      rw [List.length_cons, List.length_cons, List.length_replicate]]
    omega
  · rw [hh]

/-- C2 (amended): a POST with correct Authorization whose body exceeds
1 MiB is answered 400 with the generic invalid-JSON body — and the alert
is never decoded, so the transformer and client are never reached —
provided the leading JSON value of the body does not successfully decode
within the first 2^20 bytes (`limitedDecodeAlert` fails). The
counterexample shows the proviso is necessary: an oversized body whose
leading JSON value is complete within the cap is decoded and processed
normally. -/
theorem webhook_oversized_amended (cfg : Config) (send : PushoverMessage → Except String Unit)
    (builder : FluxAlert → String) (req : WebhookRequest)
    (hm : req.method = "POST")
    (ha : req.authorization = cfg.bearerToken)
    (hlen : maxBodySize < req.body.length)
    (hd : limitedDecodeAlert maxBodySize req.body = .error ()) :
    webhookHandler cfg send builder req =
      { status := 400, respBody := responseInvalidJSON, builderCalled := false,
        clientCalled := false, origin := .parse } := by
  have hopt : ¬ (("POST" : String) = "OPTIONS") := by decide
  simp [webhookHandler, hm, hopt, ha, hd]


theorem reqHugeDoc_decode :
    limitedDecodeAlert maxBodySize reqHugeDoc.body = .error () := by
  show limitedDecodeAlert maxBodySize (List.replicate (maxBodySize + 1) 'x') = .error ()
  rw [List.replicate_succ]
  exact limitedDecode_x maxBodySize _

theorem reqHugeDoc_length : maxBodySize < reqHugeDoc.body.length := by
  show maxBodySize < (List.replicate (maxBodySize + 1) 'x').length
  rw [List.length_replicate]
  omega

/-- Witness for the amended C2 at a > 1 MiB body that the decoder
rejects. -/
theorem webhook_oversized_amended_witness :
    maxBodySize < reqHugeDoc.body.length ∧
    webhookHandler cfgAuth (fun _ => .ok ()) buildPushoverMessage reqHugeDoc =
      { status := 400, respBody := responseInvalidJSON, builderCalled := false,
        clientCalled := false, origin := .parse } :=
  ⟨reqHugeDoc_length,
   webhook_oversized_amended cfgAuth (fun _ => .ok ()) buildPushoverMessage reqHugeDoc
     rfl rfl reqHugeDoc_length reqHugeDoc_decode⟩

/-! ## Validation branch (C10) -/

/-- C10: for every alert value (as opposed to a nil pointer),
`ValidateAlert` returns nil; consequently, once a body has been
successfully decoded, the validation-failure 400 branch of the webhook
handler is unreachable — no handler trace originates from it. -/
theorem validateAlert_branch_unreachable :
    (∀ a : FluxAlert, validateAlert (some a) = none) ∧
    (∀ (cfg : Config) (send : PushoverMessage → Except String Unit)
        (builder : FluxAlert → String) (req : WebhookRequest),
      (webhookHandler cfg send builder req).origin ≠ HandlerStep.validate) := by
  refine ⟨fun _ => rfl, ?_⟩
  intro cfg send builder req
  simp only [webhookHandler, validateAlert]
  split
  · simp
  split
  · simp
  split
  · simp
  split
  · simp
  split
  · simp
  split <;> simp

end FluxPushover
